import Mathlib

/-
Verification of the Geospatial-Temporal Resolver core of the photo-organizer
repository (build_photo_catalog.py), as a shallow embedding in Lean 4.

Conventions of the embedding:
* Python floats are modelled as real numbers where the code does transcendental
  math (haversine distance) and as rationals where the code only does field
  arithmetic and comparisons (timestamps, elapsed hours, window tests).
* Timestamps are seconds; a datetime is a naive wall-clock value together with
  an optional UTC offset (tzinfo).  A formatted timezone string in the code is
  nonempty exactly when the parsed datetime carries a tzinfo.
* Fallible operations return Option; an uncaught exception that aborts the run
  is the outer none of a nested Option.
-/

namespace PhotoOrganizer

/-- Sphere radius in miles used for great-circle distance
(EARTH_RADIUS_MI in build_photo_catalog.py). -/
noncomputable def EARTH_RADIUS_MI : ℝ := 3958.7613

/-- Degrees-to-radians conversion, mirroring math.radians. -/
noncomputable def radians (x : ℝ) : ℝ := x * (Real.pi / 180)

/-- Haversine distance in miles between two coordinates given in degrees,
mirroring haversine_miles: the asin argument is clamped with min 1 before use. -/
noncomputable def haversine_miles (lat1 lon1 lat2 lon2 : ℝ) : ℝ :=
  let dlat := radians (lat2 - lat1)
  let dlon := radians (lon2 - lon1)
  let a := Real.sin (dlat / 2) ^ 2 +
    Real.cos (radians lat1) * Real.cos (radians lat2) * Real.sin (dlon / 2) ^ 2
  let c := 2 * Real.arcsin (min 1 (Real.sqrt a))
  EARTH_RADIUS_MI * c

/-- The intermediate quantity fed to sqrt in haversine_miles (the variable a). -/
noncomputable def havA (lat1 lon1 lat2 lon2 : ℝ) : ℝ :=
  Real.sin (radians (lat2 - lat1) / 2) ^ 2 +
    Real.cos (radians lat1) * Real.cos (radians lat2) *
      Real.sin (radians (lon2 - lon1) / 2) ^ 2

/-- A cached resolved location: the dicts appended to the anchors list in
build_catalog (coordinate plus the six place-label fields). -/
structure Anchor where
  lat : ℝ
  lon : ℝ
  city_label : String
  neighborhood : String
  county : String
  state : String
  country_code : String
  folder_label : String

open Classical in
/-- The anchor-cache query of build_catalog: scan the anchors list in order and
return the first anchor whose haversine distance to the query is at most the
radius (the for-loop with break).  Pure: the list is only read. -/
noncomputable def anchorMatch (radius lat lon : ℝ) : List Anchor → Option Anchor
  | [] => none
  | a :: rest =>
    if haversine_miles lat lon a.lat a.lon ≤ radius then some a
    else anchorMatch radius lat lon rest

/-- The six place-label fields a record carries. -/
structure Place where
  city_label : String
  neighborhood : String
  county : String
  state : String
  country_code : String
  folder_label : String
deriving DecidableEq

/-- Default place fields of a record before any resolution
(label = city_label = UnknownLocation, remaining fields empty). -/
def defaultPlace : Place :=
  { city_label := "UnknownLocation", neighborhood := "", county := "",
    state := "", country_code := "", folder_label := "UnknownLocation" }

/-- Place fields read off a matched anchor (lines 348-354 of the source). -/
def placeOfAnchor (a : Anchor) : Place :=
  { city_label := a.city_label, neighborhood := a.neighborhood,
    county := a.county, state := a.state, country_code := a.country_code,
    folder_label := a.folder_label }

/-- Anchor built from a coordinate and the place fields in scope when the
append at line 367 runs. -/
def anchorOfPlace (lat lon : ℝ) (p : Place) : Anchor :=
  { lat := lat, lon := lon, city_label := p.city_label,
    neighborhood := p.neighborhood, county := p.county, state := p.state,
    country_code := p.country_code, folder_label := p.folder_label }

/-- Place resolution for one GPS-bearing record (lines 304-376): query the
anchor cache; on a hit take the anchor fields and leave the list alone; on a
miss take the geocode result when the call succeeded (some) or keep the
defaults when it raised (none), and in either case append a new anchor built
from whatever fields are in scope — the append is outside the try/except. -/
noncomputable def resolvePlace (radius : ℝ) (anchors : List Anchor)
    (lat lon : ℝ) (geocode : Option Place) : Place × List Anchor :=
  match anchorMatch radius lat lon anchors with
  | some m => (placeOfAnchor m, anchors)
  | none =>
    let pl := geocode.getD defaultPlace
    (pl, anchors ++ [anchorOfPlace lat lon pl])

/-- JSON scalar values appearing in the persisted anchor cache. -/
inductive JVal where
  | num (x : ℝ)
  | str (s : String)

def keyLat : String := "lat"
def keyLon : String := "lon"
def keyCity : String := "city_label"
def keyHood : String := "neighborhood"
def keyCounty : String := "county"
def keyState : String := "state"
def keyCC : String := "country_code"
def keyFolder : String := "folder_label"

/-- JSON object written for one anchor by json.dump (keys in the construction
order of the dict at lines 367-375). -/
def anchorToJson (a : Anchor) : List (String × JVal) :=
  [(keyLat, JVal.num a.lat), (keyLon, JVal.num a.lon),
   (keyCity, JVal.str a.city_label), (keyHood, JVal.str a.neighborhood),
   (keyCounty, JVal.str a.county), (keyState, JVal.str a.state),
   (keyCC, JVal.str a.country_code), (keyFolder, JVal.str a.folder_label)]

/-- String field read with a default: dict.get(k, empty) on the loaded object. -/
def strOrEmpty : Option JVal → String
  | some (JVal.str s) => s
  | _ => ""

/-- Reading one anchor object back from the loaded JSON: lat, lon, city_label
and folder_label are accessed directly (a[k]); the other labels via .get with
an empty default. -/
def anchorOfJson (j : List (String × JVal)) : Option Anchor :=
  match j.lookup keyLat, j.lookup keyLon, j.lookup keyCity, j.lookup keyFolder with
  | some (JVal.num la), some (JVal.num lo), some (JVal.str ci), some (JVal.str fo) =>
    some { lat := la, lon := lo, city_label := ci,
           neighborhood := strOrEmpty (j.lookup keyHood),
           county := strOrEmpty (j.lookup keyCounty),
           state := strOrEmpty (j.lookup keyState),
           country_code := strOrEmpty (j.lookup keyCC),
           folder_label := fo }
  | _, _, _, _ => none

/-- Serialization of the whole anchor list (json.dump at lines 469-471). -/
def saveAnchors (l : List Anchor) : List (List (String × JVal)) :=
  l.map anchorToJson

/-- Deserialization of the whole anchor list (json.load at lines 252-257). -/
def loadAnchors (js : List (List (String × JVal))) : Option (List Anchor) :=
  js.mapM anchorOfJson

/-- A parsed capture timestamp: naive wall-clock seconds plus the optional UTC
offset attached by parse_dt from the EXIF offset fields (tzinfo). -/
structure TS where
  naive : ℚ
  off : Option ℚ
deriving DecidableEq

/-- Elapsed-hours computation between the previous and the current GPS-bearing
record (lines 312-335 plus the use at line 337), given the hrs value left over
from the previous loop iteration (stale).  Both timestamps aware: the
astimezone call raises (the name timezone is shadowed by a string at line 284),
the outer except then subtracts the aware datetimes, which is the UTC-normalized
difference.  Both naive: plain wall-clock subtraction; the offset-compensation
branch at lines 325-333 is unreachable because a nonempty timezone string
implies an aware datetime.  Mixed aware/naive: the subtraction raises TypeError,
the inner except only resets delta_sec, hrs is never assigned in this
iteration, so line 337 reads the stale value — and raises an uncaught TypeError
when that value is None (outer none = run aborts). -/
def computeHrs (prev cur : TS) (stale : Option ℚ) : Option (Option ℚ) :=
  match prev.off, cur.off with
  | some po, some co => some (some (|(cur.naive - co) - (prev.naive - po)| / 3600))
  | none, none => some (some (|cur.naive - prev.naive| / 3600))
  | _, _ =>
    match stale with
    | some h => some (some h)
    | none => none

/-- Speed in mph from a distance and the elapsed hours
(speed_mph = dist / hrs if hrs > 0 else None, line 337). -/
def speed_mph (dist hrs : ℚ) : Option ℚ :=
  if hrs > 0 then some (dist / hrs) else none

/-- Sequence of hrs_from_prev_pic values recorded for a run whose records all
bear GPS, threading the previous-record cursor and the leftover hrs variable;
none = the run aborted on the uncaught TypeError of line 337. -/
def hrsTraceGo : Option TS → Option ℚ → List TS → Option (List (Option ℚ))
  | _, _, [] => some []
  | none, _, t :: rest => (hrsTraceGo (some t) none rest).map (fun l => none :: l)
  | some p, stale, t :: rest =>
    match computeHrs p t stale with
    | none => none
    | some h => (hrsTraceGo (some t) h rest).map (fun l => h :: l)

/-- Recorded elapsed-hours column for a list of GPS-bearing records. -/
def hrsTrace (records : List TS) : Option (List (Option ℚ)) :=
  hrsTraceGo none none records

/-- One discovered input file: its file-modification time and the capture
timestamp parse_dt would extract from its metadata (none when unavailable). -/
structure FileEntry where
  mtime : ℚ
  capture : Option ℚ
deriving DecidableEq

/-- Ordering relation used to sort the discovered files:
files.sort(key=lambda p: os.path.getmtime(p)) at line 241. -/
def mtimeLe (a b : FileEntry) : Prop := a.mtime ≤ b.mtime

instance : DecidableRel mtimeLe := fun a b => inferInstanceAs (Decidable (a.mtime ≤ b.mtime))

instance : IsTotal FileEntry mtimeLe := ⟨fun a b => le_total a.mtime b.mtime⟩

instance : IsTrans FileEntry mtimeLe := ⟨fun _ _ _ h h' => le_trans h h'⟩

/-- Processing order of the discovered files: a stable sort by file-modification
time (Python list.sort is stable; capture time is not consulted). -/
def sortFilesByMtime (files : List FileEntry) : List FileEntry :=
  List.insertionSort mtimeLe files

/-- Geo-source classification written into the geo_source column. -/
inductive GeoSource where
  | EXIF
  | Unknown
  | inferred
deriving DecidableEq

/-- One output row (the dict built at lines 386-419).  lat/lon model the
empty-string-or-float cells; timeSec models the datetime parsed back from the
date and time cells by datetime.fromisoformat (none = the parse raises);
all remaining cells are kept as strings. -/
structure Row where
  source_path : String
  file_name : String
  timeSec : Option ℚ
  timezone : String
  lat : Option ℚ
  lon : Option ℚ
  geo_source : GeoSource
  miles_from_prev_pic : String
  hrs_from_prev_pic : String
  mph_from_prev_pic : String
  city_label : String
  neighborhood : String
  county : String
  state : String
  country_code : String
  make : String
  model : String
  lens : String
  fnumber : String
  exposure : String
  iso : String
  focal_length : String
  orientation : String
  width : String
  height : String
  proposed_folder : String
deriving DecidableEq

/-- Donor collection of the inference pass (lines 431-439): rows with both
coordinate cells nonempty and a parsable timestamp, as (time, lat, lon). -/
def knownOf (rows : List Row) : List (ℚ × ℚ × ℚ) :=
  rows.filterMap fun r =>
    match r.lat, r.lon, r.timeSec with
    | some la, some lo, some t => some (t, la, lo)
    | _, _, _ => none

/-- Time window of the inference pass (MAX_MINUTES = 60). -/
def MAX_MINUTES : ℚ := 60

/-- Absolute time difference in minutes between a donor time and the recipient
time (delta_min at line 451). -/
def deltaMin (rt kdt : ℚ) : ℚ := |kdt - rt| / 60

/-- The donor-selection loop at lines 448-454: scan the donors in order keeping
the best (coordinate, delta) so far; take a donor when its delta is within the
window and strictly improves on the current best (or there is no best yet). -/
def bestDonorAux (rt : ℚ) : List (ℚ × ℚ × ℚ) → Option ((ℚ × ℚ) × ℚ) → Option ((ℚ × ℚ) × ℚ)
  | [], acc => acc
  | d :: rest, none =>
    if deltaMin rt d.1 ≤ MAX_MINUTES then
      bestDonorAux rt rest (some ((d.2.1, d.2.2), deltaMin rt d.1))
    else bestDonorAux rt rest none
  | d :: rest, some b =>
    if deltaMin rt d.1 ≤ MAX_MINUTES ∧ deltaMin rt d.1 < b.2 then
      bestDonorAux rt rest (some ((d.2.1, d.2.2), deltaMin rt d.1))
    else bestDonorAux rt rest (some b)

/-- Coordinate donated to a recipient at time rt, if any. -/
def bestDonor (rt : ℚ) (known : List (ℚ × ℚ × ℚ)) : Option (ℚ × ℚ) :=
  (bestDonorAux rt known none).map Prod.fst

/-- The per-row body of the inference loop (lines 442-458): only rows with
geo_source Unknown and a missing coordinate cell are touched; a timestamp-parse
failure skips the row; when a donor is found only lat, lon and geo_source are
assigned. -/
def inferRow (known : List (ℚ × ℚ × ℚ)) (r : Row) : Row :=
  if r.geo_source = GeoSource.Unknown ∧ (r.lat = none ∨ r.lon = none) then
    match r.timeSec with
    | none => r
    | some rt =>
      match bestDonor rt known with
      | none => r
      | some c => { r with lat := some c.1, lon := some c.2,
                           geo_source := GeoSource.inferred }
  else r

/-- The whole temporal-inference pass: the donor list is collected from the
rows once, before any row is modified, and each row is then updated
independently of the others. -/
def inferPass (rows : List Row) : List Row :=
  rows.map (inferRow (knownOf rows))

/-- Fields of a row that the inference pass may never touch (everything except
lat, lon and geo_source). -/
def frameEq (r r' : Row) : Prop :=
  r'.source_path = r.source_path ∧ r'.file_name = r.file_name ∧
  r'.timeSec = r.timeSec ∧ r'.timezone = r.timezone ∧
  r'.miles_from_prev_pic = r.miles_from_prev_pic ∧
  r'.hrs_from_prev_pic = r.hrs_from_prev_pic ∧
  r'.mph_from_prev_pic = r.mph_from_prev_pic ∧
  r'.city_label = r.city_label ∧ r'.neighborhood = r.neighborhood ∧
  r'.county = r.county ∧ r'.state = r.state ∧
  r'.country_code = r.country_code ∧ r'.make = r.make ∧
  r'.model = r.model ∧ r'.lens = r.lens ∧ r'.fnumber = r.fnumber ∧
  r'.exposure = r.exposure ∧ r'.iso = r.iso ∧
  r'.focal_length = r.focal_length ∧ r'.orientation = r.orientation ∧
  r'.width = r.width ∧ r'.height = r.height ∧
  r'.proposed_folder = r.proposed_folder

/-- A concrete anchor used in closed instances below. -/
noncomputable def testAnchor : Anchor :=
  { lat := 1, lon := 1, city_label := "TestCity", neighborhood := "",
    county := "", state := "", country_code := "", folder_label := "TestCity" }

/-- Blank row template for closed instances. -/
def blankRow : Row :=
  { source_path := "", file_name := "", timeSec := none, timezone := "",
    lat := none, lon := none, geo_source := GeoSource.Unknown,
    miles_from_prev_pic := "", hrs_from_prev_pic := "", mph_from_prev_pic := "",
    city_label := "UnknownLocation", neighborhood := "", county := "",
    state := "", country_code := "", make := "", model := "", lens := "",
    fnumber := "", exposure := "", iso := "", focal_length := "",
    orientation := "", width := "", height := "",
    proposed_folder := "UnknownLocation_" }

/-- Donor row 50 minutes before the recipient, at coordinate (1, 2). -/
def exDonor0 : Row :=
  { blankRow with timeSec := some (-3000), lat := some 1, lon := some 2,
                  geo_source := GeoSource.EXIF }

/-- Recipient row at time 0 with no coordinate. -/
def exRecipient : Row :=
  { blankRow with timeSec := some 0 }

/-- Donor row 10 minutes after the recipient, at coordinate (3, 4). -/
def exDonor1 : Row :=
  { blankRow with timeSec := some 600, lat := some 3, lon := some 4,
                  geo_source := GeoSource.EXIF }

/-- Three-row run exercising the inference pass: donors at -50 and +10 minutes
around the recipient. -/
def exRows : List Row := [exDonor0, exRecipient, exDonor1]

/-- The recipient after inference: coordinate of the +10-minute donor,
reclassified inferred, every other field untouched. -/
def exInferredRow : Row :=
  { exRecipient with lat := some 3, lon := some 4,
                     geo_source := GeoSource.inferred }

lemma haversine_eq (lat1 lon1 lat2 lon2 : ℝ) :
    haversine_miles lat1 lon1 lat2 lon2 =
      EARTH_RADIUS_MI *
        (2 * Real.arcsin (min 1 (Real.sqrt (havA lat1 lon1 lat2 lon2)))) := rfl

lemma radians_sub_swap (x y : ℝ) : radians (x - y) = -(radians (y - x)) := by
  unfold radians; ring

lemma sin_sq_radians_swap (x y : ℝ) :
    Real.sin (radians (x - y) / 2) ^ 2 = Real.sin (radians (y - x) / 2) ^ 2 := by
  rw [radians_sub_swap, neg_div, Real.sin_neg]; ring

lemma havA_symm (lat1 lon1 lat2 lon2 : ℝ) :
    havA lat1 lon1 lat2 lon2 = havA lat2 lon2 lat1 lon1 := by
  unfold havA
  rw [sin_sq_radians_swap lat2 lat1, sin_sq_radians_swap lon2 lon1]
  ring

lemma haversine_symm (lat1 lon1 lat2 lon2 : ℝ) :
    haversine_miles lat1 lon1 lat2 lon2 = haversine_miles lat2 lon2 lat1 lon1 := by
  rw [haversine_eq, haversine_eq, havA_symm]

lemma radians_zero : radians 0 = 0 := by
  unfold radians; ring

lemma havA_self (lat lon : ℝ) : havA lat lon lat lon = 0 := by
  unfold havA
  rw [sub_self, sub_self, radians_zero, zero_div, Real.sin_zero]
  ring

lemma haversine_self (lat lon : ℝ) : haversine_miles lat lon lat lon = 0 := by
  rw [haversine_eq, havA_self, Real.sqrt_zero, min_eq_right zero_le_one,
    Real.arcsin_zero]
  ring

lemma clamp_nonneg (x : ℝ) : 0 ≤ min 1 (Real.sqrt x) :=
  le_min zero_le_one (Real.sqrt_nonneg x)

lemma clamp_le_one (x : ℝ) : min 1 (Real.sqrt x) ≤ 1 := min_le_left _ _

lemma EARTH_RADIUS_MI_pos : (0 : ℝ) < EARTH_RADIUS_MI := by
  unfold EARTH_RADIUS_MI; norm_num

lemma haversine_nonneg (lat1 lon1 lat2 lon2 : ℝ) :
    0 ≤ haversine_miles lat1 lon1 lat2 lon2 := by
  rw [haversine_eq]
  have h1 : 0 ≤ Real.arcsin (min 1 (Real.sqrt (havA lat1 lon1 lat2 lon2))) :=
    Real.arcsin_nonneg.mpr (clamp_nonneg _)
  have h2 := EARTH_RADIUS_MI_pos
  nlinarith

lemma haversine_le (lat1 lon1 lat2 lon2 : ℝ) :
    haversine_miles lat1 lon1 lat2 lon2 ≤ Real.pi * EARTH_RADIUS_MI := by
  rw [haversine_eq]
  have h1 : Real.arcsin (min 1 (Real.sqrt (havA lat1 lon1 lat2 lon2))) ≤ Real.pi / 2 :=
    Real.arcsin_le_pi_div_two _
  have h2 := EARTH_RADIUS_MI_pos
  nlinarith

lemma haversine_one_degree (lat lon : ℝ) :
    haversine_miles lat lon (lat + 1) lon = EARTH_RADIUS_MI * (Real.pi / 180) := by
  have hpi := Real.pi_pos
  have hx0 : (0 : ℝ) ≤ Real.pi / 360 := by linarith
  have hA : havA lat lon (lat + 1) lon = Real.sin (Real.pi / 360) ^ 2 := by
    unfold havA
    rw [show lat + 1 - lat = (1 : ℝ) by ring, sub_self, radians_zero, zero_div,
      Real.sin_zero, show radians 1 / 2 = Real.pi / 360 by unfold radians; ring]
    ring
  have hs : Real.sqrt (havA lat lon (lat + 1) lon) = Real.sin (Real.pi / 360) := by
    rw [hA, Real.sqrt_sq (Real.sin_nonneg_of_nonneg_of_le_pi hx0 (by linarith))]
  rw [haversine_eq, hs, min_eq_right (Real.sin_le_one _),
    Real.arcsin_sin (by linarith) (by linarith)]
  ring

/-- Claim C8: the haversine distance function is symmetric, returns 0 for
identical points, and the distance between two points one degree of latitude
apart on the same meridian is approximately 69.0 miles (within 0.1 mile) on a
sphere of radius 3958.7613 miles. -/
theorem haversine_algebraic_properties :
    (∀ lat1 lon1 lat2 lon2 : ℝ,
        haversine_miles lat1 lon1 lat2 lon2 = haversine_miles lat2 lon2 lat1 lon1) ∧
    (∀ lat lon : ℝ, haversine_miles lat lon lat lon = 0) ∧
    (∀ lat lon : ℝ, |haversine_miles lat lon (lat + 1) lon - 69| < 1 / 10) := by
  refine ⟨haversine_symm, haversine_self, fun lat lon => ?_⟩
  rw [haversine_one_degree, abs_lt]
  have h1 := Real.pi_gt_d6
  have h2 := Real.pi_lt_d6
  unfold EARTH_RADIUS_MI
  norm_num at h1 h2 ⊢
  constructor <;> nlinarith

/-- Claim C10: haversine_miles is total and safe on all real inputs — the
argument handed to arcsin is clamped to at most 1, and the result is always
non-negative and at most pi times the sphere radius, for any latitudes and
longitudes including ones outside the valid degree ranges. -/
theorem haversine_total_bounds :
    ∀ lat1 lon1 lat2 lon2 : ℝ,
      min 1 (Real.sqrt (havA lat1 lon1 lat2 lon2)) ≤ 1 ∧
      0 ≤ haversine_miles lat1 lon1 lat2 lon2 ∧
      haversine_miles lat1 lon1 lat2 lon2 ≤ Real.pi * EARTH_RADIUS_MI :=
  fun lat1 lon1 lat2 lon2 =>
    ⟨clamp_le_one _, haversine_nonneg lat1 lon1 lat2 lon2,
      haversine_le lat1 lon1 lat2 lon2⟩

lemma anchorMatch_none_iff (radius lat lon : ℝ) (l : List Anchor) :
    anchorMatch radius lat lon l = none ↔
      ∀ a ∈ l, ¬ haversine_miles lat lon a.lat a.lon ≤ radius := by
  induction l with
  | nil => simp [anchorMatch]
  | cons a rest ih =>
    rw [anchorMatch]
    by_cases h : haversine_miles lat lon a.lat a.lon ≤ radius
    · rw [if_pos h]
      constructor
      · intro hs; exact absurd hs (Option.some_ne_none a)
      · intro hall; exact absurd h (hall a (List.mem_cons_self a rest))
    · rw [if_neg h, ih]
      constructor
      · intro hall b hb
        rcases List.mem_cons.mp hb with rfl | hb'
        · exact h
        · exact hall b hb'
      · intro hall b hb
        exact hall b (List.mem_cons.mpr (Or.inr hb))

lemma anchorMatch_some_spec (radius lat lon : ℝ) (l : List Anchor) (a : Anchor)
    (h : anchorMatch radius lat lon l = some a) :
    haversine_miles lat lon a.lat a.lon ≤ radius ∧
      ∃ pre post, l = pre ++ a :: post ∧
        ∀ b ∈ pre, ¬ haversine_miles lat lon b.lat b.lon ≤ radius := by
  induction l with
  | nil => rw [anchorMatch] at h; exact Option.noConfusion h
  | cons b rest ih =>
    rw [anchorMatch] at h
    by_cases hb : haversine_miles lat lon b.lat b.lon ≤ radius
    · rw [if_pos hb] at h
      obtain rfl : b = a := by injection h
      exact ⟨hb, [], rest, rfl, by simp⟩
    · rw [if_neg hb] at h
      obtain ⟨ha, pre, post, hsplit, hpre⟩ := ih h
      refine ⟨ha, b :: pre, post, by rw [hsplit]; rfl, ?_⟩
      intro c hc
      rcases List.mem_cons.mp hc with rfl | hc'
      · exact hb
      · exact hpre c hc'

/-- Claim C5: for every anchor list and query coordinate, the anchor-cache
lookup returns the earliest-inserted anchor within the radius — no match is
reported exactly when no anchor is within radius, and any reported anchor is
within radius and is preceded in the list only by anchors outside the radius.
The lookup is a pure function of the list, so it cannot modify it. -/
theorem anchor_cache_first_match (radius lat lon : ℝ) (anchors : List Anchor) :
    (anchorMatch radius lat lon anchors = none ↔
      ∀ a ∈ anchors, ¬ haversine_miles lat lon a.lat a.lon ≤ radius) ∧
    ∀ a, anchorMatch radius lat lon anchors = some a →
      haversine_miles lat lon a.lat a.lon ≤ radius ∧
      ∃ pre post, anchors = pre ++ a :: post ∧
        ∀ b ∈ pre, ¬ haversine_miles lat lon b.lat b.lon ≤ radius :=
  ⟨anchorMatch_none_iff radius lat lon anchors,
    fun a h => anchorMatch_some_spec radius lat lon anchors a h⟩

/-- Witness for C5 at a concrete input: one anchor at the query coordinate with
radius 0 is returned, it is within radius, and nothing precedes it. -/
theorem anchor_cache_first_match_witness :
    haversine_miles 1 1 testAnchor.lat testAnchor.lon ≤ 0 ∧
      ∃ pre post, [testAnchor] = pre ++ testAnchor :: post ∧
        ∀ b ∈ pre, ¬ haversine_miles 1 1 b.lat b.lon ≤ 0 := by
  have h11 : haversine_miles 1 1 testAnchor.lat testAnchor.lon ≤ 0 :=
    le_of_eq (haversine_self 1 1)
  have hm : anchorMatch 0 1 1 [testAnchor] = some testAnchor := by
    rw [anchorMatch, if_pos h11]
  exact (anchor_cache_first_match 0 1 1 [testAnchor]).2 testAnchor hm

/-- Counterexample to claim C2 as stated: with radius 0, an anchor at exactly
the query coordinate still matches (the comparison is distance less-or-equal
radius and the distance is 0), so radius 0 does not force a fresh lookup for
every GPS record. -/
theorem radius_zero_claim_counterexample :
    anchorMatch 0 1 1 [testAnchor] = some testAnchor := by
  have h11 : haversine_miles 1 1 testAnchor.lat testAnchor.lon ≤ 0 :=
    le_of_eq (haversine_self 1 1)
  rw [anchorMatch, if_pos h11]

/-- Claim C2 as amended: with radius 0, a cache hit is possible only for an
anchor at haversine distance exactly 0 from the record; whenever every anchor
is at nonzero distance the query misses and a fresh lookup is triggered. -/
theorem radius_zero_cache_behavior (lat lon : ℝ) (anchors : List Anchor) :
    (∀ a, anchorMatch 0 lat lon anchors = some a →
        haversine_miles lat lon a.lat a.lon = 0) ∧
    ((∀ a ∈ anchors, haversine_miles lat lon a.lat a.lon ≠ 0) →
      anchorMatch 0 lat lon anchors = none) := by
  constructor
  · intro a h
    exact le_antisymm (anchorMatch_some_spec 0 lat lon anchors a h).1
      (haversine_nonneg lat lon a.lat a.lon)
  · intro hall
    rw [anchorMatch_none_iff]
    intro a ha hle
    exact hall a ha (le_antisymm hle (haversine_nonneg lat lon a.lat a.lon))

/-- Witness for the amended C2 at a concrete input: the empty anchor list has
no zero-distance anchor, so the radius-0 query misses. -/
theorem radius_zero_cache_behavior_witness :
    anchorMatch 0 1 1 ([] : List Anchor) = none :=
  (radius_zero_cache_behavior 1 1 []).2 (by simp)

/-- Counterexample to claim C1 as stated: on a cache miss with a failing
geocode call the anchor list does not stay equal to the one before the record —
the append at line 367 of build_photo_catalog.py is outside the try/except, so
an anchor carrying the default fields is registered anyway. -/
theorem geocode_failure_claim_counterexample :
    (resolvePlace 10 ([] : List Anchor) 0 0 none).2 ≠ ([] : List Anchor) := by
  have h : (resolvePlace 10 ([] : List Anchor) 0 0 none).2 =
      [anchorOfPlace 0 0 defaultPlace] := rfl
  rw [h]
  simp

/-- Claim C1 as amended: on a cache miss whose geocode lookup fails, the record
retains the default/unknown place fields, but an anchor built from those
default fields is still appended, so the anchor list grows by one instead of
staying unchanged. -/
theorem geocode_failure_registers_default_anchor (radius lat lon : ℝ)
    (anchors : List Anchor) (h : anchorMatch radius lat lon anchors = none) :
    resolvePlace radius anchors lat lon none =
      (defaultPlace, anchors ++ [anchorOfPlace lat lon defaultPlace]) ∧
    anchors ++ [anchorOfPlace lat lon defaultPlace] ≠ anchors := by
  constructor
  · unfold resolvePlace
    rw [h]
    rfl
  · intro he
    have hlen := congrArg List.length he
    simp at hlen

/-- Witness for the amended C1 at a concrete input: empty cache, coordinate
(0, 0), failed geocode call. -/
theorem geocode_failure_registers_default_anchor_witness :
    resolvePlace 10 ([] : List Anchor) 0 0 none =
        (defaultPlace, [] ++ [anchorOfPlace 0 0 defaultPlace]) ∧
      ([] : List Anchor) ++ [anchorOfPlace 0 0 defaultPlace] ≠ [] :=
  geocode_failure_registers_default_anchor 10 0 0 [] rfl

lemma anchorOfJson_anchorToJson (a : Anchor) :
    anchorOfJson (anchorToJson a) = some a := rfl

lemma loadAnchors_saveAnchors (l : List Anchor) :
    loadAnchors (saveAnchors l) = some l := by
  induction l with
  | nil => rfl
  | cons a rest ih =>
    unfold loadAnchors saveAnchors at ih ⊢
    rw [List.map_cons, List.mapM_cons, anchorOfJson_anchorToJson, ih]
    rfl

/-- Claim C9: serializing the anchor list to the cache file and reloading it
reproduces the list exactly, hence identical cache-hit decisions (same
match-or-no-match outcome and same matched anchor) for every query coordinate
and every radius. -/
theorem anchor_cache_roundtrip (l : List Anchor) (radius lat lon : ℝ) :
    loadAnchors (saveAnchors l) = some l ∧
    anchorMatch radius lat lon ((loadAnchors (saveAnchors l)).getD []) =
      anchorMatch radius lat lon l := by
  refine ⟨loadAnchors_saveAnchors l, ?_⟩
  rw [loadAnchors_saveAnchors l]
  rfl

/-- Claim C3 (code bug at the failing input): for a run of three GPS-bearing
records — naive at 0 s, naive at 3600 s, offset-aware at 10800 s — the first
pair records elapsed 1 h, but the mixed naive/aware second pair records the
stale 1 h left over from the previous iteration, where the claimed naive
wall-clock difference is (10800 - 3600)/3600 = 2 h; and when the mixed pair is
the first pair of the run there is no leftover value and the run aborts on an
uncaught TypeError (modelled as none). -/
theorem elapsed_hours_stale_reuse :
    hrsTrace [⟨0, none⟩, ⟨3600, none⟩, ⟨10800, some 0⟩] =
        some [none, some 1, some 1] ∧
      |(10800 : ℚ) - 3600| / 3600 = 2 ∧
      hrsTrace [⟨3600, none⟩, ⟨10800, some 0⟩] = none := by
  refine ⟨?_, by norm_num, ?_⟩ <;> norm_num [hrsTrace, hrsTraceGo, computeHrs]

/-- Counterexample to claim C4 as stated: two files whose capture timestamps
are present and ordered oppositely to their modification times are processed in
modification-time order — the file with the later capture time (2) comes out
first — so the output row order does not agree with capture-time order. -/
theorem capture_order_claim_counterexample :
    sortFilesByMtime [⟨2, some 1⟩, ⟨1, some 2⟩] = [⟨1, some 2⟩, ⟨2, some 1⟩] ∧
      (1 : ℚ) < 2 := by
  refine ⟨by decide, by norm_num⟩

/-- Claim C4 as amended: records are processed in one pass ordered by
file-modification time unconditionally; capture time plays no role in the
ordering, so the output order is non-decreasing in mtime for every input. -/
theorem processing_order_by_mtime (files : List FileEntry) :
    List.Sorted mtimeLe (sortFilesByMtime files) :=
  List.sorted_insertionSort mtimeLe files

lemma bestDonorAux_eq_none_iff (rt : ℚ) (l : List (ℚ × ℚ × ℚ)) :
    ∀ acc, bestDonorAux rt l acc = none ↔
      acc = none ∧ ∀ d ∈ l, ¬ deltaMin rt d.1 ≤ MAX_MINUTES := by
  induction l with
  | nil => intro acc; simp [bestDonorAux]
  | cons d rest ih =>
    intro acc
    cases acc with
    | none =>
      simp only [bestDonorAux]
      by_cases h : deltaMin rt d.1 ≤ MAX_MINUTES
      · rw [if_pos h, ih]
        simp [h, List.forall_mem_cons]
      · rw [if_neg h, ih]
        simp [List.forall_mem_cons, not_le.mp h, h]
    | some b =>
      simp only [bestDonorAux]
      by_cases h : deltaMin rt d.1 ≤ MAX_MINUTES ∧ deltaMin rt d.1 < b.2
      · rw [if_pos h, ih]
        simp
      · rw [if_neg h, ih]
        simp

lemma bestDonorAux_some_spec (rt : ℚ) (l : List (ℚ × ℚ × ℚ)) :
    ∀ acc c δ,
      (∀ b, acc = some b → b.2 ≤ MAX_MINUTES) →
      bestDonorAux rt l acc = some (c, δ) →
      δ ≤ MAX_MINUTES ∧
      (∀ b, acc = some b → δ ≤ b.2) ∧
      (acc = some (c, δ) ∨ ∃ d ∈ l, c = (d.2.1, d.2.2) ∧ δ = deltaMin rt d.1) ∧
      (∀ d ∈ l, δ ≤ deltaMin rt d.1) := by
  induction l with
  | nil =>
    intro acc c δ hacc h
    simp only [bestDonorAux] at h
    refine ⟨hacc _ h, ?_, Or.inl h, by simp⟩
    intro b hb
    rw [h] at hb
    injection hb with hb'
    rw [← hb']
  | cons d rest ih =>
    intro acc c δ hacc h
    cases acc with
    | none =>
      simp only [bestDonorAux] at h
      by_cases hd : deltaMin rt d.1 ≤ MAX_MINUTES
      · rw [if_pos hd] at h
        have hacc' : ∀ b, some ((d.2.1, d.2.2), deltaMin rt d.1) = some b →
            b.2 ≤ MAX_MINUTES := by
          intro b hb; injection hb with hb'; rw [← hb']; exact hd
        obtain ⟨h1, h2, h3, h4⟩ := ih _ c δ hacc' h
        refine ⟨h1, fun b hb => Option.noConfusion hb, ?_, ?_⟩
        · rcases h3 with h3 | ⟨e, he, hce, hδe⟩
          · injection h3 with h3'
            rw [Prod.mk.injEq] at h3'
            exact Or.inr ⟨d, List.mem_cons_self d rest, h3'.1.symm, h3'.2.symm⟩
          · exact Or.inr ⟨e, List.mem_cons.mpr (Or.inr he), hce, hδe⟩
        · intro e he
          rcases List.mem_cons.mp he with rfl | he'
          · exact h2 _ rfl
          · exact h4 e he'
      · rw [if_neg hd] at h
        obtain ⟨h1, h2, h3, h4⟩ := ih _ c δ (fun b hb => Option.noConfusion hb) h
        refine ⟨h1, fun b hb => Option.noConfusion hb, ?_, ?_⟩
        · rcases h3 with h3 | ⟨e, he, hce, hδe⟩
          · exact Option.noConfusion h3
          · exact Or.inr ⟨e, List.mem_cons.mpr (Or.inr he), hce, hδe⟩
        · intro e he
          rcases List.mem_cons.mp he with rfl | he'
          · have hgt : MAX_MINUTES < deltaMin rt e.1 := not_le.mp hd
            linarith
          · exact h4 e he'
    | some b =>
      simp only [bestDonorAux] at h
      by_cases hd : deltaMin rt d.1 ≤ MAX_MINUTES ∧ deltaMin rt d.1 < b.2
      · rw [if_pos hd] at h
        have hacc' : ∀ b', some ((d.2.1, d.2.2), deltaMin rt d.1) = some b' →
            b'.2 ≤ MAX_MINUTES := by
          intro b' hb'; injection hb' with hb''; rw [← hb'']; exact hd.1
        obtain ⟨h1, h2, h3, h4⟩ := ih _ c δ hacc' h
        have hδd : δ ≤ deltaMin rt d.1 := h2 _ rfl
        refine ⟨h1, ?_, ?_, ?_⟩
        · intro b' hb'
          injection hb' with hb''
          rw [← hb'']
          linarith [hd.2]
        · rcases h3 with h3 | ⟨e, he, hce, hδe⟩
          · injection h3 with h3'
            rw [Prod.mk.injEq] at h3'
            exact Or.inr ⟨d, List.mem_cons_self d rest, h3'.1.symm, h3'.2.symm⟩
          · exact Or.inr ⟨e, List.mem_cons.mpr (Or.inr he), hce, hδe⟩
        · intro e he
          rcases List.mem_cons.mp he with rfl | he'
          · exact hδd
          · exact h4 e he'
      · rw [if_neg hd] at h
        obtain ⟨h1, h2, h3, h4⟩ := ih _ c δ hacc h
        refine ⟨h1, h2, ?_, ?_⟩
        · rcases h3 with h3 | ⟨e, he, hce, hδe⟩
          · exact Or.inl h3
          · exact Or.inr ⟨e, List.mem_cons.mpr (Or.inr he), hce, hδe⟩
        · intro e he
          rcases List.mem_cons.mp he with rfl | he'
          · have hδb : δ ≤ b.2 := h2 b rfl
            by_cases h60 : deltaMin rt e.1 ≤ MAX_MINUTES
            · have hb2 : b.2 ≤ deltaMin rt e.1 :=
                not_lt.mp (not_and.mp hd h60)
              linarith
            · have hgt : MAX_MINUTES < deltaMin rt e.1 := not_le.mp h60
              linarith
          · exact h4 e he'

lemma bestDonor_none_iff (rt : ℚ) (known : List (ℚ × ℚ × ℚ)) :
    bestDonor rt known = none ↔
      ∀ d ∈ known, ¬ deltaMin rt d.1 ≤ MAX_MINUTES := by
  unfold bestDonor
  rw [Option.map_eq_none', bestDonorAux_eq_none_iff]
  simp

lemma bestDonor_some_spec (rt : ℚ) (known : List (ℚ × ℚ × ℚ)) (c : ℚ × ℚ)
    (h : bestDonor rt known = some c) :
    ∃ d ∈ known, c = (d.2.1, d.2.2) ∧ deltaMin rt d.1 ≤ MAX_MINUTES ∧
      ∀ e ∈ known, deltaMin rt d.1 ≤ deltaMin rt e.1 := by
  unfold bestDonor at h
  obtain ⟨⟨c', δ⟩, haux, hc⟩ := Option.map_eq_some'.mp h
  obtain ⟨h1, _, h3, h4⟩ :=
    bestDonorAux_some_spec rt known none c' δ (fun b hb => Option.noConfusion hb) haux
  rcases h3 with h3 | ⟨d, hd, hcd, hδd⟩
  · exact Option.noConfusion h3
  · refine ⟨d, hd, ?_, ?_, ?_⟩
    · rw [← hc]; exact hcd
    · rw [← hδd]; exact h1
    · intro e he; rw [← hδd]; exact h4 e he

lemma bestDonor_isSome (rt : ℚ) (known : List (ℚ × ℚ × ℚ))
    (h : ∃ d ∈ known, deltaMin rt d.1 ≤ MAX_MINUTES) :
    ∃ c, bestDonor rt known = some c := by
  cases hb : bestDonor rt known with
  | none =>
    rw [bestDonor_none_iff] at hb
    obtain ⟨d, hd, hw⟩ := h
    exact absurd hw (hb d hd)
  | some c => exact ⟨c, rfl⟩

lemma inferRow_eq_of_recipient (known : List (ℚ × ℚ × ℚ)) (r : Row) (rt : ℚ)
    (hg : r.geo_source = GeoSource.Unknown ∧ (r.lat = none ∨ r.lon = none))
    (ht : r.timeSec = some rt) :
    inferRow known r =
      match bestDonor rt known with
      | none => r
      | some c => { r with lat := some c.1, lon := some c.2,
                           geo_source := GeoSource.inferred } := by
  unfold inferRow
  rw [if_pos hg, ht]

lemma inferPass_getElem (rows : List Row) (i : ℕ) (hi : i < rows.length) :
    (inferPass rows)[i]? = some (inferRow (knownOf rows) rows[i]) := by
  rw [inferPass, List.getElem?_map, List.getElem?_eq_getElem hi]
  rfl

/-- Claim C6: in the temporal inference pass, a recipient record (geo-source
Unknown, missing coordinate, parsable timestamp) stays unchanged when every
donor is more than 60 minutes away, and otherwise receives the coordinate of a
donor inside the 60-minute window whose time distance is minimal among all
donors, reclassified as inferred. -/
theorem temporal_inference_window (rows : List Row) (i : ℕ) (hi : i < rows.length)
    (rt : ℚ) (h1 : rows[i].geo_source = GeoSource.Unknown)
    (h2 : rows[i].lat = none ∨ rows[i].lon = none)
    (h3 : rows[i].timeSec = some rt) :
    ((∀ d ∈ knownOf rows, ¬ deltaMin rt d.1 ≤ MAX_MINUTES) →
        (inferPass rows)[i]? = some rows[i]) ∧
    ((∃ d ∈ knownOf rows, deltaMin rt d.1 ≤ MAX_MINUTES) →
      ∃ d ∈ knownOf rows, deltaMin rt d.1 ≤ MAX_MINUTES ∧
        (∀ e ∈ knownOf rows, deltaMin rt d.1 ≤ deltaMin rt e.1) ∧
        (inferPass rows)[i]? = some { rows[i] with lat := some d.2.1,
                                                   lon := some d.2.2,
                                                   geo_source := GeoSource.inferred }) := by
  constructor
  · intro hall
    rw [inferPass_getElem rows i hi,
      inferRow_eq_of_recipient (knownOf rows) rows[i] rt ⟨h1, h2⟩ h3,
      (bestDonor_none_iff rt (knownOf rows)).mpr hall]
  · intro hex
    obtain ⟨c, hc⟩ := bestDonor_isSome rt (knownOf rows) hex
    obtain ⟨d, hd, hcd, hw, hmin⟩ := bestDonor_some_spec rt (knownOf rows) c hc
    refine ⟨d, hd, hw, hmin, ?_⟩
    rw [inferPass_getElem rows i hi,
      inferRow_eq_of_recipient (knownOf rows) rows[i] rt ⟨h1, h2⟩ h3, hc, hcd]

/-- Witness for C6 at the concrete three-record run with donors at -50 and
+10 minutes around the recipient: the inference pass rewrites the recipient
with the +10-minute donor's coordinate and reclassifies it inferred. -/
theorem temporal_inference_window_witness :
    (inferPass exRows)[1]? = some exInferredRow := by
  have hi : 1 < exRows.length := by decide
  have h1 : exRows[1].geo_source = GeoSource.Unknown := rfl
  have h2 : exRows[1].lat = none ∨ exRows[1].lon = none := Or.inl rfl
  have h3 : exRows[1].timeSec = some 0 := rfl
  have hke : knownOf exRows = [((-3000 : ℚ), (1 : ℚ), (2 : ℚ)), (600, 3, 4)] := by
    decide
  have hwin : deltaMin 0 (600 : ℚ) ≤ MAX_MINUTES := by
    norm_num [deltaMin, MAX_MINUTES]
  have hmem : ((600 : ℚ), (3 : ℚ), (4 : ℚ)) ∈ knownOf exRows := by
    rw [hke]; simp
  obtain ⟨d, hd, hw, hmin, hpass⟩ :=
    (temporal_inference_window exRows 1 hi 0 h1 h2 h3).2 ⟨(600, 3, 4), hmem, hwin⟩
  rw [hke] at hd
  rcases List.mem_cons.mp hd with rfl | hd'
  · exfalso
    have hcontra := hmin (600, 3, 4) hmem
    norm_num [deltaMin] at hcontra
  · obtain rfl := List.mem_singleton.mp hd'
    exact hpass

lemma inferRow_frame (known : List (ℚ × ℚ × ℚ)) (r : Row) :
    frameEq r (inferRow known r) := by
  unfold frameEq inferRow
  split
  · split
    · simp
    · split
      · simp
      · simp
  · simp

lemma inferRow_not_unknown (known : List (ℚ × ℚ × ℚ)) (r : Row)
    (h : r.geo_source ≠ GeoSource.Unknown) : inferRow known r = r := by
  unfold inferRow
  rw [if_neg (fun hg => h hg.1)]

/-- Claim C7: the temporal inference pass leaves every field other than
latitude, longitude, and geo-source untouched on every record (in particular
all place-label fields), and leaves records not classified Unknown entirely
unchanged. -/
theorem inference_pass_frame (rows : List Row) (i : ℕ) (hi : i < rows.length) :
    ∃ r', (inferPass rows)[i]? = some r' ∧ frameEq rows[i] r' ∧
      (rows[i].geo_source ≠ GeoSource.Unknown → r' = rows[i]) :=
  ⟨inferRow (knownOf rows) rows[i], inferPass_getElem rows i hi,
    inferRow_frame (knownOf rows) rows[i],
    fun h => inferRow_not_unknown (knownOf rows) rows[i] h⟩

/-- Witness for C7 at a concrete input: a one-record run whose record has
geo-source EXIF is passed through completely unchanged. -/
theorem inference_pass_frame_witness :
    ∃ r', (inferPass [exDonor0])[0]? = some r' ∧ frameEq exDonor0 r' ∧
      (exDonor0.geo_source ≠ GeoSource.Unknown → r' = exDonor0) :=
  inference_pass_frame [exDonor0] 0 (by decide)

end PhotoOrganizer
